import Mathlib

/-!
Verification of the FirstOne study-coach repository: shallow embedding of
`database_manager.py` and `roadmap_generator.py` in Lean 4, with theorems
settling the specification claims about progress status, roadmap allocation,
weekly-plan structure, persistence, and performance-based adaptation.

Numeric conventions: Python floats are modelled as exact rationals (ℚ) and
Python ints as ℤ/ℕ.  `int(h * 0.7)` on a nonnegative int `h` is modelled as
`7 * h / 10` (ℕ floor division), which agrees with CPython double arithmetic
for every `h < 90`, far above any daily study-hour budget.  Python `round`
is modelled exactly, including its round-half-to-even tie rule.
-/

/-- Python `round` to the nearest integer, ties going to the even integer
(banker's rounding), on exact rationals. -/
def pyRound (q : ℚ) : ℤ :=
  if q - (⌊q⌋ : ℚ) < 1/2 then ⌊q⌋
  else if 1/2 < q - (⌊q⌋ : ℚ) then ⌊q⌋ + 1
  else if ⌊q⌋ % 2 = 0 then ⌊q⌋ else ⌊q⌋ + 1


/-- Status computation of `DatabaseManager.update_progress`
(`database_manager.py`): from the submitted `mastery_level` and `attempts`
the stored `status` field is derived. -/
def update_progress_status (mastery_level : ℚ) (attempts : ℤ) : String :=
  if 8/10 ≤ mastery_level then "completed"
  else if 4/10 ≤ mastery_level then "in_progress"
  else if 3 < attempts ∧ mastery_level < 3/10 then "struggling"
  else "in_progress"


/-- One row of `user_progress` as returned by
`DatabaseManager.get_user_progress` (joined with topic and subject names). -/
structure ProgressEntry where
  topic_id : String
  mastery_level : ℚ
  attempts : ℤ
  status : String
  subject_name : String
deriving Repr, DecidableEq

/-- The fields of `get_user_profile`'s result that `roadmap_generator.py`
reads. -/
structure UserProfile where
  user_id : String
  exam_type : String
  target_year : ℤ
  study_hours_per_day : ℕ
deriving Repr, DecidableEq

/-- A row of the `subjects` table. -/
structure SubjectRow where
  id : String
  name : String
  exam_type : String
deriving Repr, DecidableEq

/-- A row of the `topics` table (the fields the roadmap code reads). -/
structure Topic where
  id : String
  name : String
  chapter_number : ℤ
  difficulty_level : ℤ
  importance : ℤ
deriving Repr, DecidableEq

/-- Stable insertion of `a` into `l`: `a` goes after every element `b` with
`le b a`. -/
def insertStable (le : α → α → Bool) (a : α) : List α → List α
  | [] => [a]
  | b :: l => if le b a then b :: insertStable le a l else a :: b :: l

/-- Stable sort by the total preorder `le`, modelling Python's stable
`list.sort` / `sorted` (any two stable sorts under the same total preorder
produce the same list). -/
def stableSort (le : α → α → Bool) (l : List α) : List α :=
  l.foldl (fun acc x => insertStable le x acc) []

/-- Mean mastery over the progress rows of one subject, `0.0` when the
subject has no rows — the `subject_performance` entries built in
`create_roadmap_strategy`. -/
def subject_performance (progress : List ProgressEntry) (name : String) : ℚ :=
  let sp := progress.filter (fun p => p.subject_name = name)
  if sp.isEmpty then 0
  else (sp.map (fun p => p.mastery_level)).sum / (sp.length : ℚ)

/-- Base time allocation per exam track (`create_roadmap_strategy`): JEE is
33/33/34, everything else falls into the `else` branch commented `# NEET`
and gets 25/25/50. -/
def base_allocation (exam_type : String) : List (String × ℤ) :=
  if exam_type = "JEE" then [("Physics", 33), ("Chemistry", 33), ("Mathematics", 34)]
  else [("Physics", 25), ("Chemistry", 25), ("Biology", 50)]

/-- Per-subject adjustment of a base percentage by performance
(`create_roadmap_strategy`): weak subjects (< 0.3) gain 10 points capped at
50, strong subjects (> 0.7) lose 5 points floored at 20. -/
def adjust_percent (base : ℤ) (performance : ℚ) : ℤ :=
  if performance < 3/10 then min 50 (base + 10)
  else if 7/10 < performance then max 20 (base - 5)
  else base

/-- The `adjusted_allocation` dict of `create_roadmap_strategy`: subjects
present in the `subjects` table get their performance-adjusted percentage,
others keep the base percentage. -/
def adjusted_allocation (exam_type : String) (subjectNames : List String)
    (progress : List ProgressEntry) : List (String × ℤ) :=
  (base_allocation exam_type).map (fun sb =>
    (sb.1, if sb.1 ∈ subjectNames then adjust_percent sb.2 (subject_performance progress sb.1)
           else sb.2))

/-- The normalization step of `create_roadmap_strategy`: every adjusted
percentage is replaced by `round(value * 100 / total)` (Python banker's
rounding). -/
def normalize_allocation (alloc : List (String × ℤ)) : List (String × ℤ) :=
  alloc.map (fun sb => (sb.1, pyRound ((sb.2 : ℚ) * 100 / (((alloc.map (fun e => e.2)).sum : ℤ) : ℚ))))

/-- The phase analysis of `create_roadmap_strategy`. -/
def compute_phase (progress : List ProgressEntry) : String :=
  if progress.isEmpty then "foundation"
  else if (progress.map (fun p => p.mastery_level)).sum / (progress.length : ℚ) < 3/10 then "foundation"
  else if (progress.map (fun p => p.mastery_level)).sum / (progress.length : ℚ) < 6/10 then "intermediate"
  else "advanced"

/-- The focus areas of `create_roadmap_strategy`. -/
def focus_areas (progress : List ProgressEntry) : List String :=
  if progress.isEmpty then ["basic_concepts", "ncert_completion"]
  else if (progress.map (fun p => p.mastery_level)).sum / (progress.length : ℚ) < 3/10 then
    ["concept_building", "basic_practice"]
  else if (progress.map (fun p => p.mastery_level)).sum / (progress.length : ℚ) < 6/10 then
    ["problem_solving", "previous_year_questions"]
  else ["mock_tests", "advanced_problems", "revision"]

/-- `get_priority_subjects`: subject names sorted by performance, worst
first (Python `sorted` is stable, dict order is the subject-list order). -/
def get_priority_subjects (subjectNames : List String) (progress : List ProgressEntry) : List String :=
  (stableSort (fun a b => decide (a.2 ≤ b.2))
    (subjectNames.map (fun s => (s, subject_performance progress s)))).map (fun sb => sb.1)

/-- `calculate_study_intensity`. -/
def calculate_study_intensity (months_remaining : ℤ) (_phase : String) : String :=
  if months_remaining ≤ 2 then "high"
  else if months_remaining ≤ 6 then "medium_high"
  else if months_remaining ≤ 12 then "medium"
  else "low_medium"

/-- The strategy dict returned by `create_roadmap_strategy`. -/
structure Strategy where
  phase : String
  months_remaining : ℤ
  focus_areas : List String
  subject_allocation : List (String × ℤ)
  subject_performance : List (String × ℚ)
  priority_subjects : List String
  study_intensity : String
deriving Repr, DecidableEq

/-- `RoadmapGenerator.create_roadmap_strategy`, with the current date passed
explicitly (`datetime.now()` in the source) and the DB `subjects` rows
passed by name. -/
def create_roadmap_strategy (nowYear nowMonth : ℤ) (profile : UserProfile)
    (progress : List ProgressEntry) (subjectNames : List String) : Strategy :=
  let examMonth : ℤ := if profile.exam_type = "JEE" then 4 else 5
  let monthsRemaining := max 1 ((profile.target_year - nowYear) * 12 + examMonth - nowMonth)
  { phase := compute_phase progress
    months_remaining := monthsRemaining
    focus_areas := focus_areas progress
    subject_allocation := normalize_allocation (adjusted_allocation profile.exam_type subjectNames progress)
    subject_performance := subjectNames.map (fun s => (s, subject_performance progress s))
    priority_subjects := get_priority_subjects subjectNames progress
    study_intensity := calculate_study_intensity monthsRemaining (compute_phase progress) }

/-- An activity dict inside a day's plan (`generate_weekly_plan`); fields
absent from a given dict are `none`. -/
structure Activity where
  type : String
  subject : String
  topic : Option String
  topic_id : Option String
  duration : ℕ
  priority : Option String
deriving Repr, DecidableEq

/-- One day's entry of the weekly plan dict. -/
structure DayPlan where
  day : ℕ
  focus : String
  activities : List Activity
deriving Repr, DecidableEq

/-- The mastery level the dict comprehension
`{p['topic_id']: p for p in progress}` of `select_topics_for_day` yields for
a topic: the LAST progress row of that topic wins, default `0.0`. -/
def topic_mastery (progress : List ProgressEntry) (topicId : String) : ℚ :=
  match progress.reverse.find? (fun p => p.topic_id = topicId) with
  | some p => p.mastery_level
  | none => 0

/-- The phase filter of `select_topics_for_day`. -/
def suitable_for_phase (phase : String) (m : ℚ) : Bool :=
  if phase = "foundation" then decide (m < 4/10)
  else if phase = "intermediate" then decide (3/10 ≤ m) && decide (m < 7/10)
  else decide (6/10 ≤ m)

/-- Descending comparison on `(importance, difficulty_level)` used by the
`reverse=True` sort of `select_topics_for_day` (`a` no later than `b` iff
`a`'s key is at least `b`'s key, lexicographically). -/
def topic_key_ge (a b : Topic) : Bool :=
  decide (b.importance < a.importance) ||
    (decide (a.importance = b.importance) && decide (b.difficulty_level ≤ a.difficulty_level))

/-- `RoadmapGenerator.select_topics_for_day`: phase-suitable topics (falling
back to all topics when none fit), stably sorted by importance then
difficulty, descending; top 3 returned. -/
def select_topics_for_day (topics : List Topic) (progress : List ProgressEntry)
    (phase : String) : List Topic :=
  if topics.isEmpty then []
  else
    let suitable := topics.filter (fun t => suitable_for_phase phase (topic_mastery progress t.id))
    let chosen := if suitable.isEmpty then topics else suitable
    (stableSort topic_key_ge chosen).take 3

/-- Day 7 (Sunday) of `generate_weekly_plan`: revision plus mock test, each
of `study_hours_per_day // 2` hours, no topic and no priority key. -/
def sunday_plan (study_hours_per_day : ℕ) : DayPlan :=
  { day := 7
    focus := "revision_and_assessment"
    activities :=
      [⟨"revision", "Mixed", none, none, study_hours_per_day / 2, none⟩,
       ⟨"mock_test", "Mixed", none, none, study_hours_per_day / 2, none⟩] }

/-- A regular study day (days 1–6) of `generate_weekly_plan`.  `int(h*0.7)`
and `int(h*0.2)` are modelled as `7*h/10` and `2*h/10` (exact for every
`h < 90` under CPython doubles). -/
def regular_day_plan (strategy : Strategy) (study_hours_per_day : ℕ)
    (allTopics : List (String × List Topic)) (progress : List ProgressEntry)
    (day : ℕ) : DayPlan :=
  let prio := strategy.priority_subjects
  let primary := prio.getD (day % prio.length) ""
  let secondary := prio.getD ((day + 1) % prio.length) ""
  let primaryTopics :=
    select_topics_for_day ((allTopics.lookup primary).getD []) progress strategy.phase
  let primaryHours := 7 * study_hours_per_day / 10
  let secondaryHours := 2 * study_hours_per_day / 10
  let primaryActs : List Activity :=
    match primaryTopics with
    | [] => []
    | t :: _ => [⟨"concept_study", primary, some t.name, some t.id, primaryHours, some "high"⟩]
  let secondaryActs : List Activity :=
    match allTopics.lookup secondary with
    | none => []
    | some ts =>
      match select_topics_for_day ts progress strategy.phase with
      | [] => []
      | t :: _ => [⟨"practice", secondary, some t.name, some t.id, secondaryHours, some "medium"⟩]
  { day := day
    focus := primary
    activities := primaryActs ++ secondaryActs ++
      [⟨"revision", "Mixed", none, none,
        study_hours_per_day - primaryHours - secondaryHours, some "low"⟩] }

/-- `RoadmapGenerator.generate_weekly_plan`: days 1–6 are regular study
days, day 7 is the Sunday revision/assessment day. -/
def generate_weekly_plan (strategy : Strategy) (study_hours_per_day : ℕ)
    (allTopics : List (String × List Topic)) (progress : List ProgressEntry) : List DayPlan :=
  (List.range 6).map (fun i => regular_day_plan strategy study_hours_per_day allTopics progress (i + 1))
    ++ [sunday_plan study_hours_per_day]

/-- A row of the `roadmap_items` table (the generated UUID key is omitted). -/
structure RoadmapItem where
  roadmap_id : String
  topic_id : String
  day_of_week : ℕ
  study_hours : ℕ
  priority : ℤ
deriving Repr, DecidableEq

/-- The numeric priority stored by `save_roadmap`. -/
def priority_code (p : Option String) : ℤ :=
  if p = some "high" then 1 else if p = some "medium" then 2 else 3

/-- The `roadmap_items` rows inserted by `RoadmapGenerator.save_roadmap`:
one row per activity whose `topic_id` is truthy (present and non-empty). -/
def save_roadmap_items (roadmapId : String) (weeklyPlan : List DayPlan) : List RoadmapItem :=
  weeklyPlan.flatMap (fun dp =>
    dp.activities.filterMap (fun a =>
      match a.topic_id with
      | some tid =>
        if tid = "" then none
        else some ⟨roadmapId, tid, dp.day, a.duration, priority_code a.priority⟩
      | none => none))

/-- A row of the `roadmaps` table. -/
structure RoadmapRow where
  id : String
  user_id : String
  week_number : ℕ
  year : ℤ
  status : String
deriving Repr, DecidableEq

/-- The database tables touched by `generate_weekly_roadmap`, as explicit
state.  Progress rows carry their user id; `ORDER BY` clauses that no claim
depends on are modelled as table order. -/
structure DBState where
  profiles : List UserProfile
  user_progress : List (String × ProgressEntry)
  subjects : List SubjectRow
  topics : List (String × Topic)
  roadmaps : List RoadmapRow
  roadmap_items : List RoadmapItem
deriving Repr, DecidableEq

/-- `DatabaseManager.get_user_profile`. -/
def get_user_profile (db : DBState) (userId : String) : Option UserProfile :=
  db.profiles.find? (fun p => p.user_id = userId)

/-- `DatabaseManager.get_user_progress`. -/
def get_user_progress (db : DBState) (userId : String) : List ProgressEntry :=
  (db.user_progress.filter (fun p => p.1 = userId)).map (fun p => p.2)

/-- `DatabaseManager.get_subjects_for_exam`: subjects whose `exam_type`
matches or is `BOTH`. -/
def get_subjects_for_exam (db : DBState) (examType : String) : List SubjectRow :=
  db.subjects.filter (fun s => s.exam_type = examType || s.exam_type = "BOTH")

/-- `DatabaseManager.get_topics_for_subject`, ordered by chapter number
(stable, like SQLite ORDER BY on equal keys in table order). -/
def get_topics_for_subject (db : DBState) (subjectId : String) : List Topic :=
  stableSort (fun a b => decide (a.chapter_number ≤ b.chapter_number))
    ((db.topics.filter (fun p => p.1 = subjectId)).map (fun p => p.2))

/-- The dict returned by `generate_weekly_roadmap` on success. -/
structure RoadmapResult where
  roadmap_id : String
  week_number : ℕ
  year : ℤ
  exam_type : String
  study_hours_per_day : ℕ
  weekly_plan : List DayPlan
  strategy : Strategy
deriving Repr, DecidableEq

/-- `RoadmapGenerator.generate_weekly_roadmap`: looks up the profile
(returning the `{"error": "User not found"}` dict when absent), builds the
strategy and the weekly plan, and persists the roadmap row plus its items.
The current date, the computed ISO week and the fresh UUID are passed
explicitly. -/
def generate_weekly_roadmap (db : DBState) (nowYear nowMonth : ℤ)
    (weekNumber : ℕ) (year : ℤ) (newRoadmapId : String) (userId : String) :
    Except String RoadmapResult × DBState :=
  match get_user_profile db userId with
  | none => (Except.error "User not found", db)
  | some profile =>
    let progress := get_user_progress db userId
    let subjects := get_subjects_for_exam db profile.exam_type
    let subjectNames := subjects.map (fun s => s.name)
    let strategy := create_roadmap_strategy nowYear nowMonth profile progress subjectNames
    let allTopics := subjects.map (fun s => (s.name, get_topics_for_subject db s.id))
    let plan := generate_weekly_plan strategy profile.study_hours_per_day allTopics progress
    let items := save_roadmap_items newRoadmapId plan
    (Except.ok
      { roadmap_id := newRoadmapId
        week_number := weekNumber
        year := year
        exam_type := profile.exam_type
        study_hours_per_day := profile.study_hours_per_day
        weekly_plan := plan
        strategy := strategy },
     { db with
        roadmaps := db.roadmaps ++ [⟨newRoadmapId, userId, weekNumber, year, "active"⟩]
        roadmap_items := db.roadmap_items ++ items })

/-- An adaptation dict of `adapt_roadmap_based_on_performance`. -/
structure Adaptation where
  type : String
  subject : Option String
  reason : String
  action : String
deriving Repr, DecidableEq

/-- The `subject_struggles` dict: struggling-row counts per subject, in
first-occurrence order (Python dict insertion order). -/
def subject_struggles (progress : List ProgressEntry) : List (String × ℕ) :=
  progress.foldl
    (fun acc p =>
      if p.status = "struggling" then
        if acc.any (fun q => q.1 = p.subject_name) then
          acc.map (fun q => if q.1 = p.subject_name then (q.1, q.2 + 1) else q)
        else acc ++ [(p.subject_name, 1)]
      else acc) []

/-- Mean mastery over all progress rows, 0 when there are none — the
`avg_mastery` guard of the increase-difficulty branch. -/
def mean_mastery (progress : List ProgressEntry) : ℚ :=
  if progress.isEmpty then 0
  else (progress.map (fun p => p.mastery_level)).sum / (progress.length : ℚ)

/-- One week's completion rate as computed by `get_roadmap_analytics`. -/
def weekly_completion_rate (completed total : ℕ) : ℚ :=
  if 0 < total then (completed : ℚ) / (total : ℚ) * 100 else 0

/-- The `avg_completion_rate` of `get_roadmap_analytics`: mean of the weekly
completion rates, 0 when no week was tracked. -/
def avg_completion_rate (weeks : List (ℕ × ℕ)) : ℚ :=
  if weeks.isEmpty then 0
  else (weeks.map (fun w => weekly_completion_rate w.1 w.2)).sum / (weeks.length : ℚ)

/-- `RoadmapGenerator.adapt_roadmap_based_on_performance`, as a function of
the analytics average completion rate and the user's progress rows. -/
def adapt_roadmap_based_on_performance (avgCompletionRate : ℚ)
    (progress : List ProgressEntry) : List Adaptation :=
  (if avgCompletionRate < 50 then
    [⟨"reduce_workload", none, "Low completion rate", "Reduce daily study hours by 1"⟩]
   else [])
  ++ ((subject_struggles progress).filterMap (fun sc =>
        if 2 ≤ sc.2 then
          some ⟨"increase_focus", some sc.1,
                "Struggling with " ++ toString sc.2 ++ " topics",
                "Increase " ++ sc.1 ++ " study time by 30%"⟩
        else none))
  ++ (if 80 < avgCompletionRate ∧ 7/10 < mean_mastery progress then
        [⟨"increase_difficulty", none, "Excellent performance",
          "Add advanced topics and mock tests"⟩]
      else [])
/-- Dictionary access `allocation[subject]` on the association-list model
(keys are distinct subject names, so the first binding is the binding). -/
def alloc_value (alloc : List (String × ℤ)) (s : String) : ℤ :=
  ((alloc.find? (fun e => e.1 = s)).map (fun e => e.2)).getD 0

/-- Concrete strategy input used to instantiate plan-level theorems: a
fresh JEE user in the foundation phase. -/
def stratJEE : Strategy :=
  { phase := "foundation"
    months_remaining := 6
    focus_areas := ["basic_concepts", "ncert_completion"]
    subject_allocation := [("Physics", 33), ("Chemistry", 33), ("Mathematics", 34)]
    subject_performance := [("Physics", 0), ("Chemistry", 0), ("Mathematics", 0)]
    priority_subjects := ["Physics", "Chemistry", "Mathematics"]
    study_intensity := "medium" }

/-- Concrete per-subject topic lists used to instantiate plan-level
theorems. -/
def topicsJEE : List (String × List Topic) :=
  [("Physics", [⟨"tp", "Kinematics", 1, 2, 5⟩]),
   ("Chemistry", [⟨"tc", "Atomic Structure", 1, 2, 5⟩]),
   ("Mathematics", [⟨"tm", "Quadratic Equations", 1, 2, 5⟩])]

lemma pyRound_le_add_half (q : ℚ) : (pyRound q : ℚ) ≤ q + 1/2 := by
  unfold pyRound
  have h1 : (⌊q⌋ : ℚ) ≤ q := Int.floor_le q
  have h2 : q < (⌊q⌋ : ℚ) + 1 := Int.lt_floor_add_one q
  split_ifs with hlt hgt hev <;> push_cast <;> linarith

lemma sub_half_le_pyRound (q : ℚ) : q - 1/2 ≤ (pyRound q : ℚ) := by
  unfold pyRound
  have h1 : (⌊q⌋ : ℚ) ≤ q := Int.floor_le q
  have h2 : q < (⌊q⌋ : ℚ) + 1 := Int.lt_floor_add_one q
  split_ifs with hlt hgt hev <;> push_cast <;> linarith

lemma pyRound_mono {q r : ℚ} (h : q ≤ r) : pyRound q ≤ pyRound r := by
  rcases eq_or_lt_of_le h with heq | hlt
  · subst heq; exact le_refl _
  · have hq := pyRound_le_add_half q
    have hr := sub_half_le_pyRound r
    have : (pyRound q : ℚ) < (pyRound r : ℚ) + 1 := by linarith
    exact_mod_cast Int.lt_add_one_iff.mp (by exact_mod_cast this)

/-- C1 counterexample: the spec's status table says mastery_level < 0.4 with
attempts > 3 yields `struggling`, and in particular mastery 0.35 with
5 attempts; the code instead requires mastery_level < 0.3 for `struggling`,
so mastery 0.35 with 5 attempts is stored as `in_progress`. -/
theorem C1_counterexample :
    (35 : ℚ)/100 < 4/10 ∧ (3 : ℤ) < 5 ∧
    update_progress_status (35/100) 5 = "in_progress" ∧
    update_progress_status (35/100) 5 ≠ "struggling" := by
  have hst : update_progress_status (35/100) 5 = "in_progress" := by
    simp only [update_progress_status]; norm_num
  exact ⟨by norm_num, by norm_num, hst, by rw [hst]; decide⟩

/-- C1 (amended): the stored status follows the code's table:
mastery ≥ 0.8 → `completed`; 0.4 ≤ mastery < 0.8 → `in_progress`;
mastery < 0.3 AND attempts > 3 → `struggling`; otherwise `in_progress`.
In particular mastery 0.85 with 1 attempt is `completed` and mastery 0.35
with 5 attempts is `in_progress`. -/
theorem C1_status_table (m : ℚ) (a : ℤ) :
    (8/10 ≤ m → update_progress_status m a = "completed") ∧
    (4/10 ≤ m → m < 8/10 → update_progress_status m a = "in_progress") ∧
    (m < 3/10 → 3 < a → update_progress_status m a = "struggling") ∧
    (m < 4/10 → (a ≤ 3 ∨ 3/10 ≤ m) → update_progress_status m a = "in_progress") ∧
    update_progress_status (85/100) 1 = "completed" ∧
    update_progress_status (35/100) 5 = "in_progress" := by
  unfold update_progress_status
  refine ⟨?_, ?_, ?_, ?_, by norm_num, by norm_num⟩
  · intro h; rw [if_pos h]
  · intro h1 h2
    rw [if_neg (by linarith), if_pos h1]
  · intro h1 h2
    rw [if_neg (by linarith), if_neg (by linarith), if_pos ⟨h2, h1⟩]
  · intro h1 h2
    rcases lt_or_le m (8/10) with h8 | h8
    · rcases lt_or_le m (4/10) with h4 | h4
      · rw [if_neg (by linarith), if_neg (by linarith)]
        rcases h2 with ha | hm
        · rw [if_neg (by intro hc; exact absurd hc.1 (by omega))]
        · rw [if_neg (by intro hc; exact absurd hc.2 (by linarith))]
      · rw [if_neg (by linarith), if_pos h4]
    · linarith

/-- Witness for C1_status_table at mastery 0.2, attempts 4. -/
theorem C1_status_table_witness :
    update_progress_status (2/10) 4 = "struggling" :=
  (C1_status_table (2/10) 4).2.2.1 (by norm_num) (by norm_num)

lemma mem_ite {c : Prop} [Decidable c] {x y : ℤ} {L : List ℤ}
    (hx : x ∈ L) (hy : y ∈ L) : (if c then x else y) ∈ L := by
  split_ifs <;> assumption

lemma adjust_percent_33 (q : ℚ) : adjust_percent 33 q ∈ ([43, 28, 33] : List ℤ) := by
  unfold adjust_percent; split_ifs <;> norm_num

lemma adjust_percent_34 (q : ℚ) : adjust_percent 34 q ∈ ([44, 29, 34] : List ℤ) := by
  unfold adjust_percent; split_ifs <;> norm_num

lemma adjust_percent_25 (q : ℚ) : adjust_percent 25 q ∈ ([35, 20, 25] : List ℤ) := by
  unfold adjust_percent; split_ifs <;> norm_num

lemma adjust_percent_50 (q : ℚ) : adjust_percent 50 q ∈ ([50, 45, 50] : List ℤ) := by
  unfold adjust_percent; split_ifs <;> norm_num

lemma normalize_sum_three (s1 s2 s3 : String) (a b c : ℤ) :
    ((normalize_allocation [(s1, a), (s2, b), (s3, c)]).map (fun e => e.2)).sum =
      pyRound ((a : ℚ) * 100 / ((a + b + c : ℤ) : ℚ)) +
      pyRound ((b : ℚ) * 100 / ((a + b + c : ℤ) : ℚ)) +
      pyRound ((c : ℚ) * 100 / ((a + b + c : ℤ) : ℚ)) := by
  simp [normalize_allocation]
  ring_nf

lemma jee_sum_bound (a b c : ℤ) (ha : a ∈ ([43, 28, 33] : List ℤ))
    (hb : b ∈ ([43, 28, 33] : List ℤ)) (hc : c ∈ ([44, 29, 34] : List ℤ)) :
    99 ≤ pyRound ((a : ℚ) * 100 / ((a + b + c : ℤ) : ℚ)) +
         pyRound ((b : ℚ) * 100 / ((a + b + c : ℤ) : ℚ)) +
         pyRound ((c : ℚ) * 100 / ((a + b + c : ℤ) : ℚ)) ∧
    pyRound ((a : ℚ) * 100 / ((a + b + c : ℤ) : ℚ)) +
      pyRound ((b : ℚ) * 100 / ((a + b + c : ℤ) : ℚ)) +
      pyRound ((c : ℚ) * 100 / ((a + b + c : ℤ) : ℚ)) ≤ 101 := by
  fin_cases ha <;> fin_cases hb <;> fin_cases hc <;>
    exact ⟨by norm_num [pyRound], by norm_num [pyRound]⟩

lemma neet_sum_bound (a b c : ℤ) (ha : a ∈ ([35, 20, 25] : List ℤ))
    (hb : b ∈ ([35, 20, 25] : List ℤ)) (hc : c ∈ ([50, 45, 50] : List ℤ)) :
    99 ≤ pyRound ((a : ℚ) * 100 / ((a + b + c : ℤ) : ℚ)) +
         pyRound ((b : ℚ) * 100 / ((a + b + c : ℤ) : ℚ)) +
         pyRound ((c : ℚ) * 100 / ((a + b + c : ℤ) : ℚ)) ∧
    pyRound ((a : ℚ) * 100 / ((a + b + c : ℤ) : ℚ)) +
      pyRound ((b : ℚ) * 100 / ((a + b + c : ℤ) : ℚ)) +
      pyRound ((c : ℚ) * 100 / ((a + b + c : ℤ) : ℚ)) ≤ 101 := by
  fin_cases ha <;> fin_cases hb <;> fin_cases hc <;>
    exact ⟨by norm_num [pyRound], by norm_num [pyRound]⟩

/-- C2 counterexample: with Physics and Chemistry weak (no progress rows)
and Mathematics strong (mean mastery 0.8), the adjusted JEE allocation is
43/43/29 and the normalized percentages 37/37/25 sum to 99, not 100. -/
theorem C2_counterexample :
    ((normalize_allocation (adjusted_allocation "JEE"
        ["Physics", "Chemistry", "Mathematics"]
        [⟨"topic_m", 8/10, 1, "completed", "Mathematics"⟩])).map (fun e => e.2)).sum = 99 ∧
    (99 : ℤ) ≠ 100 := by
  rw [show (8 : ℚ)/10 = 4/5 by norm_num]
  have hP : subject_performance [⟨"topic_m", 4/5, 1, "completed", "Mathematics"⟩] "Physics" = 0 := by
    simp [subject_performance]
  have hC : subject_performance [⟨"topic_m", 4/5, 1, "completed", "Mathematics"⟩] "Chemistry" = 0 := by
    simp [subject_performance]
  have hM : subject_performance [⟨"topic_m", 4/5, 1, "completed", "Mathematics"⟩] "Mathematics" = 4/5 := by
    norm_num [subject_performance]
  have hlist : adjusted_allocation "JEE" ["Physics", "Chemistry", "Mathematics"]
      [⟨"topic_m", 4/5, 1, "completed", "Mathematics"⟩] =
      [("Physics", 43), ("Chemistry", 43), ("Mathematics", 29)] := by
    norm_num [adjusted_allocation, base_allocation, adjust_percent, hP, hC, hM,
      min_def, max_def]
  rw [hlist, normalize_sum_three]
  constructor
  · norm_num [pyRound]
  · decide

/-- C2 (amended): for every exam track, subject set and progress state, the
normalized allocation percentages sum to 100 up to a rounding defect of at
most 1 (the sum is 99, 100 or 101); it need not be exactly 100. -/
theorem C2_sum_within_one (exam : String) (names : List String)
    (progress : List ProgressEntry) :
    99 ≤ ((normalize_allocation (adjusted_allocation exam names progress)).map (fun e => e.2)).sum ∧
    ((normalize_allocation (adjusted_allocation exam names progress)).map (fun e => e.2)).sum ≤ 101 := by
  by_cases hexam : exam = "JEE"
  · have hlist : adjusted_allocation exam names progress =
        [("Physics", if "Physics" ∈ names then
            adjust_percent 33 (subject_performance progress "Physics") else 33),
         ("Chemistry", if "Chemistry" ∈ names then
            adjust_percent 33 (subject_performance progress "Chemistry") else 33),
         ("Mathematics", if "Mathematics" ∈ names then
            adjust_percent 34 (subject_performance progress "Mathematics") else 34)] := by
      subst hexam; simp [adjusted_allocation, base_allocation]
    rw [hlist, normalize_sum_three]
    exact jee_sum_bound _ _ _
      (mem_ite (adjust_percent_33 _) (by norm_num))
      (mem_ite (adjust_percent_33 _) (by norm_num))
      (mem_ite (adjust_percent_34 _) (by norm_num))
  · have hlist : adjusted_allocation exam names progress =
        [("Physics", if "Physics" ∈ names then
            adjust_percent 25 (subject_performance progress "Physics") else 25),
         ("Chemistry", if "Chemistry" ∈ names then
            adjust_percent 25 (subject_performance progress "Chemistry") else 25),
         ("Biology", if "Biology" ∈ names then
            adjust_percent 50 (subject_performance progress "Biology") else 50)] := by
      simp [adjusted_allocation, base_allocation, hexam]
    rw [hlist, normalize_sum_three]
    exact neet_sum_bound _ _ _
      (mem_ite (adjust_percent_25 _) (by norm_num))
      (mem_ite (adjust_percent_25 _) (by norm_num))
      (mem_ite (adjust_percent_50 _) (by norm_num))

/-- C3: a brand-new user (no progress rows) on the JEE track with the
standard three subjects gets subject allocation exactly
Physics 33 / Chemistry 33 / Mathematics 34 and phase `foundation` from
`generate_weekly_roadmap` (every subject is "weak", so each base share
gains 10 points and renormalization lands back on 33/33/34). -/
theorem C3_new_user_allocation :
    ((generate_weekly_roadmap
        ⟨[⟨"u1", "JEE", 2026, 4⟩], [],
         [⟨"s1", "Physics", "JEE"⟩, ⟨"s2", "Chemistry", "JEE"⟩, ⟨"s3", "Mathematics", "JEE"⟩],
         [], [], []⟩
        2025 10 42 2025 "rm1" "u1").1.map
      (fun r => (r.strategy.subject_allocation, r.strategy.phase))) =
    Except.ok ([("Physics", 33), ("Chemistry", 33), ("Mathematics", 34)], "foundation") := by
  have hP : subject_performance [] "Physics" = 0 := by simp [subject_performance]
  have hC : subject_performance [] "Chemistry" = 0 := by simp [subject_performance]
  have hM : subject_performance [] "Mathematics" = 0 := by simp [subject_performance]
  have hlist : adjusted_allocation "JEE" ["Physics", "Chemistry", "Mathematics"] [] =
      [("Physics", 43), ("Chemistry", 43), ("Mathematics", 44)] := by
    norm_num [adjusted_allocation, base_allocation, adjust_percent, hP, hC, hM,
      min_def, max_def]
  have halloc : ((normalize_allocation (adjusted_allocation "JEE"
      ["Physics", "Chemistry", "Mathematics"] [])).map (fun e => e.2)) = [33, 33, 34] := by
    rw [hlist]
    simp only [normalize_allocation, List.map_cons, List.map_nil, List.sum_cons, List.sum_nil]
    norm_num [pyRound]
  simp [generate_weekly_roadmap, get_user_profile, get_user_progress,
    get_subjects_for_exam, create_roadmap_strategy, compute_phase, Except.map, hlist]
  simp only [normalize_allocation, List.map_cons, List.map_nil, List.sum_cons, List.sum_nil]
  norm_num [pyRound]

lemma pyRound_alloc_mono (v v' R : ℤ) (hR : 0 ≤ R) (h0 : 0 < v) (hv : v ≤ v') :
    pyRound ((v : ℚ) * 100 / ((v + R : ℤ) : ℚ)) ≤
    pyRound ((v' : ℚ) * 100 / ((v' + R : ℤ) : ℚ)) := by
  apply pyRound_mono
  have h0' : (0 : ℚ) < (v : ℚ) := by exact_mod_cast h0
  have hv' : ((v : ℚ)) ≤ (v' : ℚ) := by exact_mod_cast hv
  have hR' : (0 : ℚ) ≤ (R : ℚ) := by exact_mod_cast hR
  push_cast
  rw [div_le_div_iff₀ (by linarith) (by linarith)]
  nlinarith [mul_nonneg (sub_nonneg.mpr hv') hR']

lemma mono_pos1 (v v' B C : ℤ) (hB : 0 ≤ B) (hC : 0 ≤ C) (h0 : 0 < v) (hv : v ≤ v') :
    pyRound ((v : ℚ) * 100 / ((v + B + C : ℤ) : ℚ)) ≤
    pyRound ((v' : ℚ) * 100 / ((v' + B + C : ℤ) : ℚ)) := by
  rw [show (v + B + C : ℤ) = v + (B + C) by ring, show (v' + B + C : ℤ) = v' + (B + C) by ring]
  exact pyRound_alloc_mono v v' (B + C) (by omega) h0 hv

lemma mono_pos2 (v v' A C : ℤ) (hA : 0 ≤ A) (hC : 0 ≤ C) (h0 : 0 < v) (hv : v ≤ v') :
    pyRound ((v : ℚ) * 100 / ((A + v + C : ℤ) : ℚ)) ≤
    pyRound ((v' : ℚ) * 100 / ((A + v' + C : ℤ) : ℚ)) := by
  rw [show (A + v + C : ℤ) = v + (A + C) by ring, show (A + v' + C : ℤ) = v' + (A + C) by ring]
  exact pyRound_alloc_mono v v' (A + C) (by omega) h0 hv

lemma mono_pos3 (v v' A B : ℤ) (hA : 0 ≤ A) (hB : 0 ≤ B) (h0 : 0 < v) (hv : v ≤ v') :
    pyRound ((v : ℚ) * 100 / ((A + B + v : ℤ) : ℚ)) ≤
    pyRound ((v' : ℚ) * 100 / ((A + B + v' : ℤ) : ℚ)) := by
  rw [show (A + B + v : ℤ) = v + (A + B) by ring, show (A + B + v' : ℤ) = v' + (A + B) by ring]
  exact pyRound_alloc_mono v v' (A + B) (by omega) h0 hv

lemma alloc_value_normalize_three (n1 n2 n3 s : String) (a b c : ℤ) :
    alloc_value (normalize_allocation [(n1, a), (n2, b), (n3, c)]) s =
      if n1 = s then pyRound ((a : ℚ) * 100 / ((a + b + c : ℤ) : ℚ))
      else if n2 = s then pyRound ((b : ℚ) * 100 / ((a + b + c : ℤ) : ℚ))
      else if n3 = s then pyRound ((c : ℚ) * 100 / ((a + b + c : ℤ) : ℚ))
      else 0 := by
  by_cases h1 : n1 = s <;> by_cases h2 : n2 = s <;> by_cases h3 : n3 = s <;>
    simp [alloc_value, normalize_allocation, List.find?_cons, h1, h2, h3] <;>
    ring_nf

lemma adjust_percent_half (b : ℤ) : adjust_percent b (1/2) = b := by
  norm_num [adjust_percent]

lemma adjust_percent_fifth (b : ℤ) : adjust_percent b (1/5) = min 50 (b + 10) := by
  norm_num [adjust_percent]

lemma alloc_entry_lb (c : Prop) [Decidable c] (b : ℤ) (hb : 20 ≤ b) (q : ℚ) :
    20 ≤ (if c then adjust_percent b q else b) := by
  split_ifs with h
  · unfold adjust_percent
    split_ifs
    · exact le_min (by norm_num) (by omega)
    · exact le_max_left _ _
    · exact hb
  · exact hb

lemma alloc_mono_three (names : List String) (p1 p2 : List ProgressEntry)
    (n1 n2 n3 s : String) (b1 b2 b3 : ℤ)
    (hd12 : n1 ≠ n2) (hd13 : n1 ≠ n3) (hd23 : n2 ≠ n3)
    (hb1 : 20 ≤ b1) (hb1u : b1 ≤ 50) (hb2 : 20 ≤ b2) (hb2u : b2 ≤ 50)
    (hb3 : 20 ≤ b3) (hb3u : b3 ≤ 50)
    (h1 : subject_performance p1 s = 1/2) (h2 : subject_performance p2 s = 1/5)
    (hoth : ∀ t, t ≠ s → subject_performance p2 t = subject_performance p1 t) :
    alloc_value (normalize_allocation
      [(n1, if n1 ∈ names then adjust_percent b1 (subject_performance p1 n1) else b1),
       (n2, if n2 ∈ names then adjust_percent b2 (subject_performance p1 n2) else b2),
       (n3, if n3 ∈ names then adjust_percent b3 (subject_performance p1 n3) else b3)]) s ≤
    alloc_value (normalize_allocation
      [(n1, if n1 ∈ names then adjust_percent b1 (subject_performance p2 n1) else b1),
       (n2, if n2 ∈ names then adjust_percent b2 (subject_performance p2 n2) else b2),
       (n3, if n3 ∈ names then adjust_percent b3 (subject_performance p2 n3) else b3)]) s := by
  rw [alloc_value_normalize_three, alloc_value_normalize_three]
  by_cases hs1 : n1 = s
  · subst hs1
    rw [if_pos rfl, if_pos rfl, hoth n2 (Ne.symm hd12), hoth n3 (Ne.symm hd13), h1, h2]
    by_cases hmem : n1 ∈ names
    · simp only [if_pos hmem, adjust_percent_half, adjust_percent_fifth]
      exact mono_pos1 _ _ _ _
        (le_trans (by norm_num) (alloc_entry_lb _ b2 hb2 _))
        (le_trans (by norm_num) (alloc_entry_lb _ b3 hb3 _))
        (by omega) (le_min hb1u (by omega))
    · simp only [if_neg hmem]
      exact le_refl _
  · rw [if_neg hs1, if_neg hs1]
    by_cases hs2 : n2 = s
    · subst hs2
      rw [if_pos rfl, if_pos rfl, hoth n1 hd12, hoth n3 (Ne.symm hd23), h1, h2]
      by_cases hmem : n2 ∈ names
      · simp only [if_pos hmem, adjust_percent_half, adjust_percent_fifth]
        exact mono_pos2 _ _ _ _
          (le_trans (by norm_num) (alloc_entry_lb _ b1 hb1 _))
          (le_trans (by norm_num) (alloc_entry_lb _ b3 hb3 _))
          (by omega) (le_min hb2u (by omega))
      · simp only [if_neg hmem]
        exact le_refl _
    · rw [if_neg hs2, if_neg hs2]
      by_cases hs3 : n3 = s
      · subst hs3
        rw [if_pos rfl, if_pos rfl, hoth n1 hd13, hoth n2 hd23, h1, h2]
        by_cases hmem : n3 ∈ names
        · simp only [if_pos hmem, adjust_percent_half, adjust_percent_fifth]
          exact mono_pos3 _ _ _ _
            (le_trans (by norm_num) (alloc_entry_lb _ b1 hb1 _))
            (le_trans (by norm_num) (alloc_entry_lb _ b2 hb2 _))
            (by omega) (le_min hb3u (by omega))
        · simp only [if_neg hmem]
          exact le_refl _
      · rw [if_neg hs3, if_neg hs3]

/-- C4: lowering one subject's mean mastery from 0.5 to 0.2 while every
other subject's mean mastery stays fixed never decreases that subject's
normalized allocation percentage, for any exam track and subject set
(weak subjects gain base points, and `round(v*100/(v+R))` is monotone in
`v` for fixed rest `R`). -/
theorem C4_weakness_monotone (exam : String) (names : List String) (s : String)
    (p1 p2 : List ProgressEntry)
    (h1 : subject_performance p1 s = 1/2)
    (h2 : subject_performance p2 s = 1/5)
    (hoth : ∀ t, t ≠ s → subject_performance p2 t = subject_performance p1 t) :
    alloc_value (normalize_allocation (adjusted_allocation exam names p1)) s ≤
    alloc_value (normalize_allocation (adjusted_allocation exam names p2)) s := by
  by_cases hexam : exam = "JEE"
  · have e : ∀ p : List ProgressEntry, adjusted_allocation exam names p =
        [("Physics", if "Physics" ∈ names then
            adjust_percent 33 (subject_performance p "Physics") else 33),
         ("Chemistry", if "Chemistry" ∈ names then
            adjust_percent 33 (subject_performance p "Chemistry") else 33),
         ("Mathematics", if "Mathematics" ∈ names then
            adjust_percent 34 (subject_performance p "Mathematics") else 34)] := by
      intro p; subst hexam; simp [adjusted_allocation, base_allocation]
    rw [e p1, e p2]
    exact alloc_mono_three names p1 p2 _ _ _ s 33 33 34
      (by decide) (by decide) (by decide)
      (by norm_num) (by norm_num) (by norm_num) (by norm_num) (by norm_num) (by norm_num)
      h1 h2 hoth
  · have e : ∀ p : List ProgressEntry, adjusted_allocation exam names p =
        [("Physics", if "Physics" ∈ names then
            adjust_percent 25 (subject_performance p "Physics") else 25),
         ("Chemistry", if "Chemistry" ∈ names then
            adjust_percent 25 (subject_performance p "Chemistry") else 25),
         ("Biology", if "Biology" ∈ names then
            adjust_percent 50 (subject_performance p "Biology") else 50)] := by
      intro p; simp [adjusted_allocation, base_allocation, hexam]
    rw [e p1, e p2]
    exact alloc_mono_three names p1 p2 _ _ _ s 25 25 50
      (by decide) (by decide) (by decide)
      (by norm_num) (by norm_num) (by norm_num) (by norm_num) (by norm_num) (by norm_num)
      h1 h2 hoth

/-- Witness for C4_weakness_monotone: Physics mean mastery drops from 0.5
to 0.2 with Chemistry and Mathematics untouched. -/
theorem C4_weakness_monotone_witness :
    alloc_value (normalize_allocation (adjusted_allocation "JEE"
      ["Physics", "Chemistry", "Mathematics"]
      [⟨"t1", 1/2, 1, "in_progress", "Physics"⟩])) "Physics" ≤
    alloc_value (normalize_allocation (adjusted_allocation "JEE"
      ["Physics", "Chemistry", "Mathematics"]
      [⟨"t1", 1/5, 1, "in_progress", "Physics"⟩])) "Physics" := by
  apply C4_weakness_monotone
  · norm_num [subject_performance]
  · norm_num [subject_performance]
  · intro t ht
    have hne : ¬("Physics" = t) := fun h => ht h.symm
    simp [subject_performance, hne]

lemma regular_day_plan_day (strategy : Strategy) (h : ℕ)
    (allTopics : List (String × List Topic)) (progress : List ProgressEntry) (d : ℕ) :
    (regular_day_plan strategy h allTopics progress d).day = d := rfl

lemma sunday_plan_day (h : ℕ) : (sunday_plan h).day = 7 := rfl

/-- C5 counterexample: with a 5-hour daily budget, day 7's revision and
mock-test blocks each get `5 // 2 = 2` hours — not half of the budget
(2 · 2 ≠ 5). -/
theorem C5_counterexample :
    sunday_plan 5 ∈ generate_weekly_plan stratJEE 5 [] [] ∧
    (sunday_plan 5).activities.map (fun a => (a.type, a.duration)) =
      [("revision", 2), ("mock_test", 2)] ∧
    ¬((2 : ℕ) * 2 = 5) := by
  refine ⟨?_, rfl, by decide⟩
  simp [generate_weekly_plan]

/-- C5 (amended): day 7 of every generated weekly plan consists of exactly
two activities — a revision block and a mock-test block, each of
`⌊h/2⌋` hours (half the daily budget rounded down, so an odd budget loses
one hour) — and no concept_study activity. -/
theorem C5_day7_structure (strategy : Strategy) (h : ℕ)
    (allTopics : List (String × List Topic)) (progress : List ProgressEntry)
    (dp : DayPlan) (hmem : dp ∈ generate_weekly_plan strategy h allTopics progress)
    (hday : dp.day = 7) :
    dp.activities = [⟨"revision", "Mixed", none, none, h / 2, none⟩,
                     ⟨"mock_test", "Mixed", none, none, h / 2, none⟩] ∧
    (dp.activities.filter (fun a => a.type = "concept_study")).length = 0 := by
  simp only [generate_weekly_plan, List.mem_append, List.mem_map, List.mem_range,
    List.mem_singleton] at hmem
  rcases hmem with ⟨i, hi, rfl⟩ | rfl
  · rw [regular_day_plan_day] at hday
    omega
  · exact ⟨rfl, by simp [sunday_plan]⟩

/-- Witness for C5_day7_structure with a 4-hour budget. -/
theorem C5_day7_structure_witness :
    (sunday_plan 4).activities =
      [⟨"revision", "Mixed", none, none, 2, none⟩,
       ⟨"mock_test", "Mixed", none, none, 2, none⟩] ∧
    ((sunday_plan 4).activities.filter (fun a => a.type = "concept_study")).length = 0 :=
  C5_day7_structure stratJEE 4 [] [] (sunday_plan 4) (by simp [generate_weekly_plan]) rfl

lemma select_single_foundation (t : Topic) :
    select_topics_for_day [t] [] "foundation" = [t] := by
  have hm : topic_mastery [] t.id = 0 := rfl
  have hs : suitable_for_phase "foundation" (topic_mastery [] t.id) = true := by
    rw [hm]
    simp only [suitable_for_phase, if_pos rfl]
    norm_num
  simp [select_topics_for_day, hs, stableSort, insertStable]

lemma regular_day_plan_activity_facts (strategy : Strategy) (h : ℕ)
    (allTopics : List (String × List Topic)) (progress : List ProgressEntry) (d : ℕ) :
    ∀ a ∈ (regular_day_plan strategy h allTopics progress d).activities,
      (a.type = "concept_study" → a.duration = 7 * h / 10) ∧
      (a.type = "practice" → a.duration = 2 * h / 10) ∧
      (a.type = "revision" → a.subject = "Mixed" ∧ a.topic = none ∧ a.topic_id = none ∧
        a.duration = h - 7 * h / 10 - 2 * h / 10) := by
  intro a ha
  simp only [regular_day_plan, List.mem_append, List.mem_singleton] at ha
  rcases ha with (ha | ha) | rfl
  · split at ha
    · exact absurd ha (List.not_mem_nil a)
    · rw [List.mem_singleton] at ha
      subst ha
      exact ⟨fun _ => rfl, fun hc => by simp at hc, fun hc => by simp at hc⟩
  · split at ha
    · exact absurd ha (List.not_mem_nil a)
    · split at ha
      · exact absurd ha (List.not_mem_nil a)
      · rw [List.mem_singleton] at ha
        subst ha
        exact ⟨fun hc => by simp at hc, fun _ => rfl, fun hc => by simp at hc⟩
  · exact ⟨fun hc => by simp at hc, fun hc => by simp at hc, fun _ => ⟨rfl, rfl, rfl, rfl⟩⟩

/-- C6 counterexample: with a 6-hour daily budget, day 1's concept_study
activity gets `int(6*0.7) = 4` hours, but 70% of 6 hours is 4.2
(4·10 ≠ 7·6); the leftover revision block gets 1 hour (1/6 ≈ 17%, not
10%). -/
theorem C6_counterexample :
    regular_day_plan stratJEE 6 topicsJEE [] 1 ∈ generate_weekly_plan stratJEE 6 topicsJEE [] ∧
    (regular_day_plan stratJEE 6 topicsJEE [] 1).activities.map (fun a => (a.type, a.duration)) =
      [("concept_study", 4), ("practice", 1), ("revision", 1)] ∧
    ¬((4 : ℕ) * 10 = 7 * 6) := by
  refine ⟨?_, ?_, by decide⟩
  · simp only [generate_weekly_plan, List.mem_append, List.mem_map, List.mem_range,
      List.mem_singleton]
    exact Or.inl ⟨0, by norm_num, rfl⟩
  · have h1 : select_topics_for_day [(⟨"tc", "Atomic Structure", 1, 2, 5⟩ : Topic)] []
        "foundation" = [⟨"tc", "Atomic Structure", 1, 2, 5⟩] := select_single_foundation _
    have h2 : select_topics_for_day [(⟨"tm", "Quadratic Equations", 1, 2, 5⟩ : Topic)] []
        "foundation" = [⟨"tm", "Quadratic Equations", 1, 2, 5⟩] := select_single_foundation _
    simp [regular_day_plan, stratJEE, topicsJEE, List.lookup, h1, h2]

/-- C6 (amended): on every regular day (day ≠ 7) of a generated weekly
plan, a concept_study activity (the primary subject) gets `int(h*0.7)`
hours, a practice activity (the secondary subject) gets `int(h*0.2)`
hours, and the day always ends with an unattributed Mixed revision activity
with no topic attached carrying the remaining
`h - int(h*0.7) - int(h*0.2)` hours (about 10% plus the truncation
leftovers, not exactly 10%). -/
theorem C6_regular_day_split (strategy : Strategy) (h : ℕ)
    (allTopics : List (String × List Topic)) (progress : List ProgressEntry)
    (dp : DayPlan) (hmem : dp ∈ generate_weekly_plan strategy h allTopics progress)
    (hday : dp.day ≠ 7) :
    (∀ a ∈ dp.activities,
      (a.type = "concept_study" → a.duration = 7 * h / 10) ∧
      (a.type = "practice" → a.duration = 2 * h / 10) ∧
      (a.type = "revision" → a.subject = "Mixed" ∧ a.topic = none ∧ a.topic_id = none ∧
        a.duration = h - 7 * h / 10 - 2 * h / 10)) ∧
    (⟨"revision", "Mixed", none, none, h - 7 * h / 10 - 2 * h / 10, some "low"⟩ : Activity)
      ∈ dp.activities := by
  simp only [generate_weekly_plan, List.mem_append, List.mem_map, List.mem_range,
    List.mem_singleton] at hmem
  rcases hmem with ⟨i, hi, rfl⟩ | rfl
  · refine ⟨regular_day_plan_activity_facts strategy h allTopics progress (i + 1), ?_⟩
    simp [regular_day_plan, List.mem_append]
  · exact absurd rfl hday

/-- Witness for C6_regular_day_split on day 1 with a 6-hour budget. -/
theorem C6_regular_day_split_witness :
    (⟨"revision", "Mixed", none, none, 1, some "low"⟩ : Activity)
      ∈ (regular_day_plan stratJEE 6 topicsJEE [] 1).activities :=
  (C6_regular_day_split stratJEE 6 topicsJEE []
    (regular_day_plan stratJEE 6 topicsJEE [] 1)
    (by
      simp only [generate_weekly_plan, List.mem_append, List.mem_map, List.mem_range,
        List.mem_singleton]
      exact Or.inl ⟨0, by norm_num, rfl⟩)
    (by rw [regular_day_plan_day]; omega)).2

/-- C7 counterexample: for the unrecognized exam track "UPSC",
`create_roadmap_strategy` does not fail: it returns exactly the strategy it
would return for NEET, silently using the 25/25/50 base split (here
normalized to 29/29/42 because every subject counts as weak). -/
theorem C7_counterexample :
    create_roadmap_strategy 2025 10 ⟨"u1", "UPSC", 2026, 4⟩ []
        ["Physics", "Chemistry", "Biology"] =
      create_roadmap_strategy 2025 10 ⟨"u1", "NEET", 2026, 4⟩ []
        ["Physics", "Chemistry", "Biology"] ∧
    (create_roadmap_strategy 2025 10 ⟨"u1", "UPSC", 2026, 4⟩ []
        ["Physics", "Chemistry", "Biology"]).subject_allocation =
      [("Physics", 29), ("Chemistry", 29), ("Biology", 42)] := by
  constructor
  · rfl
  · have hP : subject_performance [] "Physics" = 0 := by simp [subject_performance]
    have hC : subject_performance [] "Chemistry" = 0 := by simp [subject_performance]
    have hB : subject_performance [] "Biology" = 0 := by simp [subject_performance]
    have hbase : base_allocation "UPSC" = [("Physics", 25), ("Chemistry", 25), ("Biology", 50)] := by
      simp [base_allocation]
    have hlist : adjusted_allocation "UPSC" ["Physics", "Chemistry", "Biology"] [] =
        [("Physics", 35), ("Chemistry", 35), ("Biology", 50)] := by
      unfold adjusted_allocation
      rw [hbase]
      norm_num [adjust_percent, hP, hC, hB, min_def, max_def]
    have hstrat : (create_roadmap_strategy 2025 10 ⟨"u1", "UPSC", 2026, 4⟩ []
        ["Physics", "Chemistry", "Biology"]).subject_allocation =
        normalize_allocation (adjusted_allocation "UPSC" ["Physics", "Chemistry", "Biology"] []) :=
      rfl
    rw [hstrat, hlist]
    simp only [normalize_allocation, List.map_cons, List.map_nil, List.sum_cons, List.sum_nil]
    norm_num [pyRound]

/-- C7 (amended): for any exam track other than "JEE" — recognized or not —
`create_roadmap_strategy` does not fail fast; it silently proceeds with the
NEET base split 25/25/50 and returns exactly the strategy of a NEET
profile. -/
theorem C7_unrecognized_track_is_neet (nowYear nowMonth : ℤ) (profile : UserProfile)
    (progress : List ProgressEntry) (names : List String)
    (hexam : profile.exam_type ≠ "JEE") :
    base_allocation profile.exam_type = [("Physics", 25), ("Chemistry", 25), ("Biology", 50)] ∧
    create_roadmap_strategy nowYear nowMonth profile progress names =
      create_roadmap_strategy nowYear nowMonth
        ⟨profile.user_id, "NEET", profile.target_year, profile.study_hours_per_day⟩
        progress names := by
  constructor
  · simp [base_allocation, hexam]
  · simp [create_roadmap_strategy, adjusted_allocation, base_allocation, hexam]

/-- Witness for C7_unrecognized_track_is_neet at the exam track "UPSC". -/
theorem C7_unrecognized_track_is_neet_witness :
    base_allocation (UserProfile.mk "u1" "UPSC" 2026 4).exam_type =
      [("Physics", 25), ("Chemistry", 25), ("Biology", 50)] ∧
    create_roadmap_strategy 2025 10 ⟨"u1", "UPSC", 2026, 4⟩ [] [] =
      create_roadmap_strategy 2025 10 ⟨"u1", "NEET", 2026, 4⟩ [] [] :=
  C7_unrecognized_track_is_neet 2025 10 ⟨"u1", "UPSC", 2026, 4⟩ [] [] (by decide)

lemma struggle_adaptation_type (sc : String × ℕ) (b : Adaptation)
    (hfa : (if 2 ≤ sc.2 then
        some (⟨"increase_focus", some sc.1,
              "Struggling with " ++ toString sc.2 ++ " topics",
              "Increase " ++ sc.1 ++ " study time by 30%"⟩ : Adaptation)
      else none) = some b) : b.type = "increase_focus" := by
  split at hfa
  · cases hfa
    rfl
  · cases hfa

/-- C8: `adapt_roadmap_based_on_performance` emits a reduce_workload
adaptation whenever the average completion rate is below 50, emits an
increase_difficulty adaptation only when the rate exceeds 80 and the mean
mastery exceeds 0.7, and in particular two weeks at 40% completion (2 of 5
items each) average to 40, which yields reduce_workload and cannot yield
increase_difficulty. -/
theorem C8_adaptation_rules (avg : ℚ) (progress : List ProgressEntry) :
    (avg < 50 →
      "reduce_workload" ∈
        (adapt_roadmap_based_on_performance avg progress).map (fun a => a.type)) ∧
    ("increase_difficulty" ∈
        (adapt_roadmap_based_on_performance avg progress).map (fun a => a.type) →
      80 < avg ∧ 7/10 < mean_mastery progress) ∧
    avg_completion_rate [(2, 5), (2, 5)] = 40 ∧
    "reduce_workload" ∈
      (adapt_roadmap_based_on_performance 40 progress).map (fun a => a.type) ∧
    "increase_difficulty" ∉
      (adapt_roadmap_based_on_performance 40 progress).map (fun a => a.type) := by
  have hreduce : ∀ q : ℚ, q < 50 →
      "reduce_workload" ∈ (adapt_roadmap_based_on_performance q progress).map (fun a => a.type) := by
    intro q hq
    simp [adapt_roadmap_based_on_performance, if_pos hq]
  have hincrease : ∀ q : ℚ,
      "increase_difficulty" ∈ (adapt_roadmap_based_on_performance q progress).map (fun a => a.type) →
      80 < q ∧ 7/10 < mean_mastery progress := by
    intro q hmem
    simp only [adapt_roadmap_based_on_performance, List.map_append, List.mem_append,
      List.mem_map] at hmem
    rcases hmem with (⟨a, ha, hta⟩ | ⟨a, ha, hta⟩) | ⟨a, ha, hta⟩
    · split at ha
      · rw [List.mem_singleton] at ha
        subst ha
        simp at hta
      · exact absurd ha (List.not_mem_nil a)
    · rw [List.mem_filterMap] at ha
      obtain ⟨sc, _, hfa⟩ := ha
      rw [struggle_adaptation_type sc a hfa] at hta
      simp at hta
    · split at ha
      · rename_i hcond
        exact hcond
      · exact absurd ha (List.not_mem_nil a)
  refine ⟨hreduce avg, hincrease avg, ?_, hreduce 40 (by norm_num), ?_⟩
  · norm_num [avg_completion_rate, weekly_completion_rate]
  · intro hmem
    have := (hincrease 40 hmem).1
    linarith

/-- Witness for C8_adaptation_rules: 40% completion with no progress rows
yields a reduce_workload adaptation. -/
theorem C8_adaptation_rules_witness :
    "reduce_workload" ∈
      (adapt_roadmap_based_on_performance 40 []).map (fun a => a.type) :=
  (C8_adaptation_rules 40 []).1 (by norm_num)

lemma save_item_day (rid : String) (dp : DayPlan) (item : RoadmapItem)
    (hmem : item ∈ dp.activities.filterMap (fun a =>
      match a.topic_id with
      | some tid =>
        if tid = "" then none
        else some ⟨rid, tid, dp.day, a.duration, priority_code a.priority⟩
      | none => none)) : item.day_of_week = dp.day := by
  rw [List.mem_filterMap] at hmem
  obtain ⟨a, _, hfa⟩ := hmem
  split at hfa
  · split at hfa
    · cases hfa
    · cases hfa
      rfl
  · cases hfa

/-- C9: every roadmap item persisted by `save_roadmap` from a generated
weekly plan has day_of_week between 1 and 6 — day 7's revision and
mock-test activities carry no topic_id and are never stored. -/
theorem C9_items_day_range (roadmapId : String) (strategy : Strategy) (h : ℕ)
    (allTopics : List (String × List Topic)) (progress : List ProgressEntry)
    (item : RoadmapItem)
    (hmem : item ∈ save_roadmap_items roadmapId
      (generate_weekly_plan strategy h allTopics progress)) :
    1 ≤ item.day_of_week ∧ item.day_of_week ≤ 6 := by
  simp only [save_roadmap_items, List.mem_flatMap] at hmem
  obtain ⟨dp, hdp, hitem⟩ := hmem
  simp only [generate_weekly_plan, List.mem_append, List.mem_map, List.mem_range,
    List.mem_singleton] at hdp
  rcases hdp with ⟨i, hi, rfl⟩ | rfl
  · have hd := save_item_day roadmapId _ item hitem
    rw [regular_day_plan_day] at hd
    omega
  · simp [sunday_plan] at hitem

/-- Witness for C9_items_day_range: day 1's Chemistry concept_study is
persisted with day_of_week 1. -/
theorem C9_items_day_range_witness :
    1 ≤ (RoadmapItem.mk "rm1" "tc" 1 4 1).day_of_week ∧
    (RoadmapItem.mk "rm1" "tc" 1 4 1).day_of_week ≤ 6 :=
  C9_items_day_range "rm1" stratJEE 6
    [("Chemistry", [⟨"tc", "Atomic Structure", 1, 2, 5⟩])] [] _ (by
      simp only [save_roadmap_items, List.mem_flatMap]
      refine ⟨regular_day_plan stratJEE 6
        [("Chemistry", [⟨"tc", "Atomic Structure", 1, 2, 5⟩])] [] 1, ?_, ?_⟩
      · simp only [generate_weekly_plan, List.mem_append, List.mem_map, List.mem_range,
          List.mem_singleton]
        exact Or.inl ⟨0, by norm_num, rfl⟩
      · have h1 := select_single_foundation (⟨"tc", "Atomic Structure", 1, 2, 5⟩ : Topic)
        simp [regular_day_plan, stratJEE, List.lookup, h1, priority_code])

/-- C10: calling `generate_weekly_roadmap` for a user id with no stored
profile returns the "User not found" error and leaves the database state
unchanged — no roadmap row and no roadmap items are written. -/
theorem C10_missing_profile_no_write (db : DBState) (nowYear nowMonth : ℤ)
    (weekNumber : ℕ) (year : ℤ) (rid userId : String)
    (hnone : get_user_profile db userId = none) :
    generate_weekly_roadmap db nowYear nowMonth weekNumber year rid userId =
      (Except.error "User not found", db) := by
  unfold generate_weekly_roadmap
  rw [hnone]

/-- Witness for C10_missing_profile_no_write on the empty database. -/
theorem C10_missing_profile_no_write_witness :
    generate_weekly_roadmap ⟨[], [], [], [], [], []⟩ 2025 10 42 2025 "rm1" "u1" =
      (Except.error "User not found", ⟨[], [], [], [], [], []⟩) :=
  C10_missing_profile_no_write ⟨[], [], [], [], [], []⟩ 2025 10 42 2025 "rm1" "u1" rfl
